import Mathlib

/-
Verification of the google-meet-resume-to-slack pipeline.

The development shallowly embeds the five Python modules of the repository
(config.py, drive_downloader.py, ai_summarizer.py, slack_poster.py, main.py).
External collaborators (the Google Drive API, the Slack API, the generative
backend, the OS environment and the local filesystem) are modelled as explicit
state records; every network call a function performs is recorded in an
explicit trace of ExtCall values so that claims about which backend calls
happen (or must not happen) can be stated and proved.  Python exceptions
raised by a collaborator are folded into the Option results of the
collaborator model, matching the try/except blocks of the source, which map
every exception to the same failure value as an unsuccessful API response.
-/

namespace MeetResume

/-- Candidate file entry as returned by the Drive files().list call with
fields id, name, mimeType, modifiedTime, webViewLink (drive_downloader.py,
the fields argument of the list request). -/
structure CandidateFile where
  id : String
  name : String
  mimeType : String
  modifiedTime : String
  webViewLink : String
  deriving DecidableEq, Repr

/-- Local filesystem model: an association list from path to file content.
Writing prepends; reading returns the most recent write for the path. -/
structure FileSystem where
  files : List (String × String)
  deriving DecidableEq, Repr

/-- Models open(path, w).write(content). -/
def FileSystem.write (fs : FileSystem) (path content : String) : FileSystem :=
  ⟨(path, content) :: fs.files⟩

/-- Models open(path, r).read(); none models a missing file
(os.path.exists false, or FileNotFoundError). -/
def FileSystem.read (fs : FileSystem) (path : String) : Option String :=
  (fs.files.find? (fun e => e.1 == path)).map (fun e => e.2)

/-- Slack Block Kit blocks built by _create_slack_message in
slack_poster.py. -/
inductive Block where
  | headerBlock (text : String)
  | dividerBlock
  | sectionBlock (mrkdwn : String)
  | contextBlock (elements : List String)
  deriving DecidableEq, Repr

/-- One observable call to an external backend.  Traces of these are
returned alongside every stage result. -/
inductive ExtCall where
  | slackAuthTest
  | driveList
  | driveDownload (fileId : String)
  | genGenerate (prompt : String)
  | slackPost (channel : String) (text : String) (blocks : List Block)
  deriving DecidableEq, Repr

/-- Drive API collaborator, already authenticated for the configured folder
query.  listing is the response of files().list with the transcript name
filter and orderBy modifiedTime desc, in API-returned order.  The three
download channels return none on a transport error (exception) and some
content on success; getMediaDocx yields the paragraph texts that
docx.Document reads from the downloaded bytes. -/
structure DriveService where
  listing : List CandidateFile
  exportPlain : String → Option String
  getMediaDocx : String → Option (List String)
  getMediaText : String → Option String

/-- Slack WebClient collaborator for the configured bot token: authOk is
the ok field of auth_test() (false also covers a raised SlackApiError),
postOk likewise for chat_postMessage. -/
structure SlackClient where
  authOk : Bool
  postOk : Bool
  deriving DecidableEq, Repr

/-- Generative AI collaborator: generate models
GenerativeModel(model_name).generate_content(prompt).  none models a raised
exception or an absent response.text; some t is the response text, which
may be empty. -/
structure GenBackend where
  generate : String → Option String

/-- OS environment collaborator: get models os.getenv, returning none when
the variable is absent. -/
structure Env where
  get : String → Option String

/- ===== config.py ===== -/

/-- Models os.getenv(key, default): the default applies only when the
variable is absent, not when it is set to the empty string. -/
def getenvD (env : Env) (k d : String) : String :=
  (env.get k).getD d

/-- The env_vars dictionary built by load_environment_variables in
config.py.  The five required entries hold the raw os.getenv results; the
two optional entries already carry their defaults. -/
structure EnvVars where
  google_credentials_path : Option String
  google_drive_folder_id : Option String
  slack_bot_token : Option String
  slack_channel_id : Option String
  google_ai_api_key : Option String
  ai_model_name : String
  target_directory : String
  deriving DecidableEq, Repr

/-- Construction of the env_vars dictionary (config.py lines 16 to 26). -/
def buildEnvVars (env : Env) : EnvVars :=
  ⟨env.get "GOOGLE_CREDENTIALS_PATH",
   env.get "GOOGLE_DRIVE_FOLDER_ID",
   env.get "SLACK_BOT_TOKEN",
   env.get "SLACK_CHANNEL_ID",
   env.get "GOOGLE_AI_API_KEY",
   getenvD env "AI_MODEL_NAME" "gemini-pro",
   getenvD env "TARGET_DIRECTORY" "./downloads"⟩

/-- Dictionary lookup env_vars[k] for the keys used by the required-variable
check in config.py. -/
def envVarsGet (e : EnvVars) (k : String) : Option String :=
  if k = "google_credentials_path" then e.google_credentials_path
  else if k = "google_drive_folder_id" then e.google_drive_folder_id
  else if k = "slack_bot_token" then e.slack_bot_token
  else if k = "slack_channel_id" then e.slack_channel_id
  else if k = "google_ai_api_key" then e.google_ai_api_key
  else if k = "ai_model_name" then some e.ai_model_name
  else if k = "target_directory" then some e.target_directory
  else none

/-- The required_vars list of config.py. -/
def required_vars : List String :=
  ["google_credentials_path",
   "google_drive_folder_id",
   "slack_bot_token",
   "slack_channel_id",
   "google_ai_api_key"]

/-- Python falsiness of a dictionary value as used by `not env_vars[var]`:
true for None and for the empty string. -/
def isFalsy : Option String → Bool
  | none => true
  | some s => s == ""

/-- The missing_vars list comprehension of config.py:
[var for var in required_vars if not env_vars[var]]. -/
def missing_vars (e : EnvVars) : List String :=
  required_vars.filter (fun k => isFalsy (envVarsGet e k))

/-- load_environment_variables (config.py): returns the env_vars bundle, or
raises ValueError naming the missing variables, modelled as Except. -/
def load_environment_variables (env : Env) : Except (List String) EnvVars :=
  let e := buildEnvVars env
  if missing_vars e = [] then .ok e else .error (missing_vars e)

/- ===== drive_downloader.py ===== -/

/-- Mime type of a native Google Docs document. -/
def gdocMime : String := "application/vnd.google-apps.document"

/-- Mime type of a .docx word-processor document. -/
def docxMime : String :=
  "application/vnd.openxmlformats-officedocument.wordprocessingml.document"

/-- Text extraction from a .docx file in _download_file_content:
newline.join(paragraph.text for paragraph in document.paragraphs). -/
def extractDocxText (paragraphs : List String) : String :=
  String.intercalate "\n" paragraphs

/-- _download_file_content (drive_downloader.py): selects the download
channel by mime type, returns the extracted text or none (unsupported type,
or any exception during download or extraction), together with the Drive
download calls it performs.  For an unsupported mime type the function
returns before any media request is issued. -/
def downloadFileContent (svc : DriveService) (fileId mimeType : String) :
    Option String × List ExtCall :=
  if mimeType = gdocMime then
    (svc.exportPlain fileId, [ExtCall.driveDownload fileId])
  else if mimeType = docxMime then
    ((svc.getMediaDocx fileId).map extractDocxText, [ExtCall.driveDownload fileId])
  else if mimeType = "text/plain" then
    (svc.getMediaText fileId, [ExtCall.driveDownload fileId])
  else
    (none, [])

/-- Header block written before the transcript body by
download_latest_transcript_from_drive, built from the five f.write calls of
the source, ending with the content heading. -/
def artifactHeader (fileName modifiedTime webViewLink : String) : String :=
  "# 会議文字起こし\n\n" ++
  ("**元ファイル名:** " ++ fileName ++ "\n") ++
  ("**更新日時:** " ++ modifiedTime ++ "\n") ++
  ("**元のURL:** " ++ webViewLink ++ "\n\n") ++
  "## 内容\n\n"

/-- Complete text of the persisted .md artifact: header followed by the
extracted content. -/
def artifactText (fileName modifiedTime webViewLink content : String) : String :=
  artifactHeader fileName modifiedTime webViewLink ++ content

/-- Selection of the latest file (drive_downloader.py): the listing is
already ordered by modifiedTime descending by the API, the source returns
None, None when the listing is empty and otherwise takes files[0]. -/
def latest_file (files : List CandidateFile) : Option CandidateFile :=
  files.head?

/-- download_latest_transcript_from_drive (drive_downloader.py): lists the
folder, selects the first (latest) file, downloads and extracts its
content, and on success writes the .md artifact.  timestamp models
datetime.now().strftime of the source.  Returns the pair
(md_filepath, web_view_link) of the source, None, None on every failure
path, together with the resulting filesystem and the trace of Drive
calls. -/
def download_latest_transcript_from_drive (svc : DriveService)
    (target_directory timestamp : String) (fs : FileSystem) :
    (Option String × Option String) × FileSystem × List ExtCall :=
  match latest_file svc.listing with
  | none => ((none, none), fs, [ExtCall.driveList])
  | some latestFile =>
    match downloadFileContent svc latestFile.id latestFile.mimeType with
    | (none, dlCalls) => ((none, none), fs, ExtCall.driveList :: dlCalls)
    | (some content, dlCalls) =>
      let md_filename := "transcript_" ++ timestamp ++ ".md"
      let md_filepath := target_directory ++ "/" ++ md_filename
      ((some md_filepath, some latestFile.webViewLink),
       fs.write md_filepath
         (artifactText latestFile.name latestFile.modifiedTime
           latestFile.webViewLink content),
       ExtCall.driveList :: dlCalls)

/- ===== ai_summarizer.py ===== -/

/-- Whitespace characters stripped by the Python str.strip method (ASCII
subset, which covers the whitespace the pipeline can produce). -/
def isPySpace (c : Char) : Bool :=
  c == ' ' || c == '\t' || c == '\n' || c == '\r' || c == '\x0b' || c == '\x0c'

/-- Models the Python str.strip method with no argument: removes leading
and trailing whitespace. -/
def pyStrip (s : String) : String :=
  ⟨((s.data.dropWhile isPySpace).reverse.dropWhile isPySpace).reverse⟩

/-- Python truthiness of an optional string, as tested by the guards of
main.py (not file_path, not google_doc_url, not summary_text): false for
None and for the empty string. -/
def pyTruthy : Option String → Bool
  | none => false
  | some s => !(s == "")

/-- _create_summary_prompt (ai_summarizer.py): the fixed template with the
transcript content interpolated at its single placeholder. -/
def _create_summary_prompt (content : String) : String :=
  "\n以下は会議の文字起こしです。この内容を以下の形式で要約してください：\n\n【要約形式】\n## 📋 会議要約\n\n### 🎯 主要議題\n- 重要なポイントを3-5点で簡潔にまとめてください\n\n### 💡 決定事項\n- 会議で決定された事項があれば箇条書きで記載してください\n- 決定事項がない場合は「なし」と記載してください\n\n### 📝 次回アクション・タスク\n- 今後実行すべきアクションやタスクがあれば担当者と期限を含めて記載してください\n- アクションがない場合は「なし」と記載してください\n\n### 📅 次回会議\n- 次回会議の予定があれば記載してください\n- 予定がない場合は「未定」と記載してください\n\n【文字起こし内容】\n"
  ++ content ++
  "\n\n上記の内容を読みやすく、要点を整理して要約してください。専門用語がある場合は簡潔に説明を加えてください。\n"

/-- summarize_transcript_with_ai (ai_summarizer.py): checks that the file
exists, reads it, rejects content that strips to empty before any backend
call, builds the prompt, invokes the backend, and rejects an absent or
empty response; a non-empty response is returned stripped.  The second
component is the trace of generation backend calls. -/
def summarize_transcript_with_ai (gen : GenBackend) (fs : FileSystem)
    (file_path : String) : Option String × List ExtCall :=
  match FileSystem.read fs file_path with
  | none => (none, [])
  | some content =>
    if pyStrip content = "" then (none, [])
    else
      let prompt := _create_summary_prompt content
      match gen.generate prompt with
      | none => (none, [ExtCall.genGenerate prompt])
      | some t =>
        (if t = "" then none else some (pyStrip t), [ExtCall.genGenerate prompt])

/- ===== slack_poster.py ===== -/

/-- _create_slack_message (slack_poster.py): the Block Kit payload; now
models int(time.time()) read inside the function. -/
def _create_slack_message (summary_text google_doc_url : String) (now : Nat) :
    List Block :=
  [Block.headerBlock "📝 会議要約レポート",
   Block.dividerBlock,
   Block.sectionBlock summary_text,
   Block.dividerBlock,
   Block.sectionBlock ("📄 *元の文書:* <" ++ google_doc_url ++ "|Google Docを開く>"),
   Block.contextBlock
     ["🤖 自動生成された要約 | 生成日時: <!date^" ++ toString now ++
      "^\x7bdate_short_pretty\x7d \x7btime\x7d|エラー>"]]

/-- post_summary_to_slack (slack_poster.py): builds the message payload and
posts it; the boolean result is the ok field of the response (false also
covers a raised SlackApiError).  The trace records the single
chat_postMessage call; the function performs no auth_test call. -/
def post_summary_to_slack (client : SlackClient)
    (channel_id summary_text google_doc_url : String) (now : Nat) :
    Bool × List ExtCall :=
  let message := _create_slack_message summary_text google_doc_url now
  (client.postOk,
   [ExtCall.slackPost channel_id "📝 会議の要約が完了しました" message])

/-- test_slack_connection (slack_poster.py): returns the ok field of
auth_test() (false also covers a raised exception). -/
def test_slack_connection (client : SlackClient) : Bool :=
  client.authOk

/- ===== main.py ===== -/

/-- External world a pipeline run executes against: the environment, the
three backend collaborators, the initial filesystem, the run timestamp used
for the artifact filename and the clock value read by the Slack message
builder. -/
structure World where
  env : Env
  slack : SlackClient
  drive : DriveService
  gen : GenBackend
  fs : FileSystem
  timestamp : String
  now : Nat

/-- main (main.py): loads the configuration, tests the Slack connection,
downloads the latest transcript, summarizes it and posts the summary,
aborting with False at the first failing stage.  Returns the overall
boolean outcome together with the trace of all external backend calls in
order. -/
def main (w : World) : Bool × List ExtCall :=
  match load_environment_variables w.env with
  | .error _ => (false, [])
  | .ok env_vars =>
    if !test_slack_connection w.slack then (false, [ExtCall.slackAuthTest])
    else
      let fetched := download_latest_transcript_from_drive w.drive
        env_vars.target_directory w.timestamp w.fs
      let calls1 := ExtCall.slackAuthTest :: fetched.2.2
      if !(pyTruthy fetched.1.1 && pyTruthy fetched.1.2) then (false, calls1)
      else
        let file_path := fetched.1.1.getD ""
        let google_doc_url := fetched.1.2.getD ""
        let summarized := summarize_transcript_with_ai w.gen fetched.2.1 file_path
        let calls2 := calls1 ++ summarized.2
        if !pyTruthy summarized.1 then (false, calls2)
        else
          let posted := post_summary_to_slack w.slack
            (env_vars.slack_channel_id.getD "") (summarized.1.getD "")
            google_doc_url w.now
          (posted.1, calls2 ++ posted.2)

/- ===== Concrete fixtures used by witnesses and counterexamples ===== -/

/-- A plain-text transcript candidate. -/
def fileTxt : CandidateFile :=
  ⟨"idTxt", "meeting_2024", "text/plain", "2024-01-02T03:04:05Z",
   "https://docs.example/doc1"⟩

/-- A word-processor transcript candidate. -/
def fileDocx : CandidateFile :=
  ⟨"idDocx", "meeting_notes.docx", docxMime, "2024-03-04T05:06:07Z",
   "https://docs.example/doc2"⟩

/-- Drive service whose only candidate extracts to the empty string. -/
def svcEmptyContent : DriveService :=
  ⟨[fileTxt], fun _ => none, fun _ => none, fun _ => some ""⟩

/-- Drive service whose only candidate extracts to whitespace only. -/
def svcBlankContent : DriveService :=
  ⟨[fileTxt], fun _ => none, fun _ => none, fun _ => some " \n "⟩

/-- Drive service with an empty folder listing. -/
def svcNoFiles : DriveService :=
  ⟨[], fun _ => none, fun _ => none, fun _ => none⟩

/-- Drive service holding one docx candidate with three paragraphs. -/
def svcDocx : DriveService :=
  ⟨[fileDocx], fun _ => none, fun _ => some ["Hello", "", "World"],
   fun _ => none⟩

/-- Generation backend returning a fixed summary. -/
def genStub : GenBackend := ⟨fun _ => some "## summary"⟩

/- ===== Helper lemmas ===== -/

/-- Accumulator lemma for the go loop of String.intercalate. -/
theorem intercalate_go_append (s : String) :
    ∀ (as : List String) (acc1 acc2 : String),
      String.intercalate.go (acc1 ++ acc2) s as
        = acc1 ++ String.intercalate.go acc2 s as := by
  intro as
  induction as with
  | nil => intro acc1 acc2; rfl
  | cons a t ih =>
    intro acc1 acc2
    show String.intercalate.go (acc1 ++ acc2 ++ s ++ a) s t
        = acc1 ++ String.intercalate.go (acc2 ++ s ++ a) s t
    rw [String.append_assoc (acc1 ++ acc2) s a, String.append_assoc acc1 acc2 (s ++ a),
        ← String.append_assoc acc2 s a]
    exact ih acc1 (acc2 ++ s ++ a)

/-- Join specification written from the words of the spec: paragraph texts
in document order, joined by single newline characters. -/
def specJoinedParagraphs : List String → String
  | [] => ""
  | [p] => p
  | p :: q :: t => p ++ "\n" ++ specJoinedParagraphs (q :: t)

/-- Agreement of the docx extraction of the source with the joined-paragraph
specification, for every paragraph list. -/
theorem extractDocxText_eq_spec :
    ∀ ps : List String, extractDocxText ps = specJoinedParagraphs ps
  | [] => rfl
  | [_] => rfl
  | p :: q :: t => by
    show String.intercalate.go (p ++ "\n" ++ q) "\n" t
        = p ++ "\n" ++ specJoinedParagraphs (q :: t)
    rw [intercalate_go_append "\n" t (p ++ "\n") q,
        ← extractDocxText_eq_spec (q :: t)]
    rfl

/-- Descending order on candidate modification timestamps (lexicographic on
the RFC 3339 timestamp characters, which agrees with chronological order for
the zero-padded UTC timestamps the Drive API returns). -/
def modifiedLe (a b : CandidateFile) : Prop :=
  a.modifiedTime.data ≤ b.modifiedTime.data

instance : DecidableRel modifiedLe := fun a b =>
  inferInstanceAs (Decidable (a.modifiedTime.data ≤ b.modifiedTime.data))

instance : DecidableRel (fun a b : CandidateFile => modifiedLe b a) := fun a b =>
  inferInstanceAs (Decidable (b.modifiedTime.data ≤ a.modifiedTime.data))

/-- Listing order contract of the Drive API under orderBy modifiedTime desc:
the returned sequence is sorted by modification time descending. -/
def sortedByModifiedTimeDesc (files : List CandidateFile) : Prop :=
  List.Sorted (fun a b => modifiedLe b a) files

/- ===== Claim theorems ===== -/

/-- C9: For every word-processor (docx) document, extraction produces the
paragraph texts in document order joined by single newline characters,
preserving empty paragraphs; in particular, a document with paragraphs
Hello, empty, World yields exactly the string Hello newline newline
World. -/
theorem c9_docx_extraction_joins_paragraphs :
    (∀ ps : List String, extractDocxText ps = specJoinedParagraphs ps) ∧
    extractDocxText ["Hello", "", "World"] = "Hello\n\nWorld" ∧
    (downloadFileContent svcDocx fileDocx.id fileDocx.mimeType).1
      = some "Hello\n\nWorld" :=
  ⟨extractDocxText_eq_spec, rfl, rfl⟩

/-- C10: Every return of download_latest_transcript_from_drive is either
fully populated (both the artifact path and the source URL are non-null, on
success) or fully null (both components are None, on every failure path);
a mixed pair never occurs. -/
theorem c10_result_pair_all_or_nothing (svc : DriveService)
    (target_directory timestamp : String) (fs : FileSystem) :
    ((download_latest_transcript_from_drive svc target_directory timestamp fs).1.1 = none ∧
     (download_latest_transcript_from_drive svc target_directory timestamp fs).1.2 = none) ∨
    (∃ p u,
     (download_latest_transcript_from_drive svc target_directory timestamp fs).1.1 = some p ∧
     (download_latest_transcript_from_drive svc target_directory timestamp fs).1.2 = some u) := by
  unfold download_latest_transcript_from_drive
  cases h : latest_file svc.listing with
  | none => simp
  | some f =>
    rcases hd : downloadFileContent svc f.id f.mimeType with ⟨c, calls⟩
    cases c <;> simp [hd]

/-- C6: For every fetch over an empty candidate listing,
download_latest_transcript_from_drive returns the not-found outcome
(None, None) and leaves the filesystem unchanged: no file is created under
the target directory. -/
theorem c6_empty_listing_not_found_no_write (svc : DriveService)
    (target_directory timestamp : String) (fs : FileSystem)
    (h : svc.listing = []) :
    download_latest_transcript_from_drive svc target_directory timestamp fs
      = ((none, none), fs, [ExtCall.driveList]) := by
  unfold download_latest_transcript_from_drive
  simp [latest_file, h]

/-- Witness for C6 at a concrete empty-listing service. -/
theorem c6_empty_listing_not_found_no_write_witness :
    download_latest_transcript_from_drive svcNoFiles "./downloads"
      "20240102_030405" ⟨[]⟩ = ((none, none), ⟨[]⟩, [ExtCall.driveList]) :=
  c6_empty_listing_not_found_no_write svcNoFiles "./downloads"
    "20240102_030405" ⟨[]⟩ rfl

/-- C4: For every folder listing containing at least one candidate, the
candidate selected by the fetch is one with the maximum modification
timestamp, taken as the first element of the listing the API returns sorted
by modification time descending; among candidates sharing the maximum
timestamp the selected one is the first in API-returned order, with no
further re-sorting. -/
theorem c4_latest_selection (svc : DriveService)
    (hs : sortedByModifiedTimeDesc svc.listing) (hne : svc.listing ≠ []) :
    ∃ f, latest_file svc.listing = some f ∧
      (∀ g ∈ svc.listing, modifiedLe g f) ∧
      (svc.listing.filter
        (fun g => g.modifiedTime == f.modifiedTime)).head? = some f := by
  cases hl : svc.listing with
  | nil => exact absurd hl hne
  | cons f rest =>
    refine ⟨f, rfl, ?_, ?_⟩
    · intro g hg
      rw [hl] at hs
      rcases List.mem_cons.mp hg with hgf | hgr
      · exact hgf ▸ le_refl _
      · exact (List.sorted_cons.mp hs).1 g hgr
    · rw [List.filter_cons_of_pos (by simp)]
      rfl

/-- Listing with three candidates, the two most recent sharing one
modification timestamp, sorted descending as the API returns it. -/
def svcTie : DriveService :=
  ⟨[⟨"idA", "meeting_a", "text/plain", "2024-05-01T10:00:00Z", "https://docs.example/a"⟩,
    ⟨"idB", "meeting_b", "text/plain", "2024-05-01T10:00:00Z", "https://docs.example/b"⟩,
    ⟨"idC", "transcript_c", "text/plain", "2024-04-30T09:00:00Z", "https://docs.example/c"⟩],
   fun _ => none, fun _ => none, fun _ => some "text"⟩

/-- Witness for C4 on a concrete sorted listing with a timestamp tie. -/
theorem c4_latest_selection_witness :
    ∃ f, latest_file svcTie.listing = some f ∧
      (∀ g ∈ svcTie.listing, modifiedLe g f) ∧
      (svcTie.listing.filter
        (fun g => g.modifiedTime == f.modifiedTime)).head? = some f :=
  c4_latest_selection svcTie
    (by
      show List.Sorted (fun a b => modifiedLe b a) svcTie.listing
      decide)
    (by decide)

/-- C1 counterexample: extraction succeeds with the empty string, yet
download_latest_transcript_from_drive returns the success pair and persists
the artifact (with an empty body), instead of returning the failure outcome
with no artifact as the claim states. -/
theorem c1_claim_counterexample :
    (download_latest_transcript_from_drive svcEmptyContent "./downloads"
      "20240102_030405" ⟨[]⟩).1.1
        = some "./downloads/transcript_20240102_030405.md" ∧
    FileSystem.read
      (download_latest_transcript_from_drive svcEmptyContent "./downloads"
        "20240102_030405" ⟨[]⟩).2.1
      "./downloads/transcript_20240102_030405.md"
        = some (artifactText "meeting_2024" "2024-01-02T03:04:05Z"
            "https://docs.example/doc1" "") := by
  constructor <;> rfl

/-- C1 amended: the fetch checks only for a None extraction result
(transport failure or unsupported type); whenever extraction returns some
string, including the empty or whitespace-only string, the fetch persists
the artifact with that string as body and returns the success pair, so the
content is passed onward to summarization rather than rejected. -/
theorem c1_amended_fetch_persists_any_some_content (svc : DriveService)
    (target_directory timestamp : String) (fs : FileSystem)
    (f : CandidateFile) (rest : List CandidateFile) (c : String)
    (hl : svc.listing = f :: rest)
    (hc : (downloadFileContent svc f.id f.mimeType).1 = some c) :
    (download_latest_transcript_from_drive svc target_directory timestamp fs).1
      = (some (target_directory ++ "/" ++ ("transcript_" ++ timestamp ++ ".md")),
         some f.webViewLink) ∧
    FileSystem.read
      (download_latest_transcript_from_drive svc target_directory timestamp fs).2.1
      (target_directory ++ "/" ++ ("transcript_" ++ timestamp ++ ".md"))
        = some (artifactText f.name f.modifiedTime f.webViewLink c) := by
  unfold download_latest_transcript_from_drive
  rcases hd : downloadFileContent svc f.id f.mimeType with ⟨o, calls⟩
  rw [hd] at hc
  simp only at hc
  subst hc
  simp [latest_file, hl, hd, FileSystem.read, FileSystem.write]

/-- Witness for the amended C1 at a whitespace-only extraction result. -/
theorem c1_amended_fetch_persists_any_some_content_witness :
    (download_latest_transcript_from_drive svcBlankContent "./downloads"
      "20240102_030405" ⟨[]⟩).1
      = (some ("./downloads" ++ "/" ++ ("transcript_" ++ "20240102_030405" ++ ".md")),
         some fileTxt.webViewLink) ∧
    FileSystem.read
      (download_latest_transcript_from_drive svcBlankContent "./downloads"
        "20240102_030405" ⟨[]⟩).2.1
      ("./downloads" ++ "/" ++ ("transcript_" ++ "20240102_030405" ++ ".md"))
        = some (artifactText fileTxt.name fileTxt.modifiedTime
            fileTxt.webViewLink " \n ") :=
  c1_amended_fetch_persists_any_some_content svcBlankContent "./downloads"
    "20240102_030405" ⟨[]⟩ fileTxt [] " \n " rfl rfl

/-- C5: For every successful fetch (non-empty listing and successful
extraction), the persisted artifact can be read back unchanged, it is
exactly the header followed by the extracted text with no truncation, and
the header carries the candidate name, modification time and source URL
verbatim between the fixed label strings. -/
theorem c5_artifact_header_body_roundtrip (svc : DriveService)
    (target_directory timestamp : String) (fs : FileSystem)
    (f : CandidateFile) (rest : List CandidateFile) (c : String)
    (hl : svc.listing = f :: rest)
    (hc : (downloadFileContent svc f.id f.mimeType).1 = some c) :
    FileSystem.read
      (download_latest_transcript_from_drive svc target_directory timestamp fs).2.1
      (target_directory ++ "/" ++ ("transcript_" ++ timestamp ++ ".md"))
        = some (artifactText f.name f.modifiedTime f.webViewLink c) ∧
    artifactText f.name f.modifiedTime f.webViewLink c
      = artifactHeader f.name f.modifiedTime f.webViewLink ++ c ∧
    (artifactText f.name f.modifiedTime f.webViewLink c).data.drop
      (artifactHeader f.name f.modifiedTime f.webViewLink).data.length = c.data ∧
    (∃ s1 s2, artifactHeader f.name f.modifiedTime f.webViewLink
      = s1 ++ (f.name ++ s2) ∧ s1 = "# 会議文字起こし\n\n" ++ "**元ファイル名:** ") ∧
    (∃ s1 s2, artifactHeader f.name f.modifiedTime f.webViewLink
      = s1 ++ (f.modifiedTime ++ s2) ∧ s2 = "\n" ++ ("**元のURL:** " ++ f.webViewLink ++ "\n\n") ++ "## 内容\n\n") ∧
    (∃ s1 s2, artifactHeader f.name f.modifiedTime f.webViewLink
      = s1 ++ (f.webViewLink ++ s2) ∧ s2 = "\n\n" ++ "## 内容\n\n") := by
  refine ⟨?_, rfl, ?_, ?_, ?_, ?_⟩
  · unfold download_latest_transcript_from_drive
    rcases hd : downloadFileContent svc f.id f.mimeType with ⟨o, calls⟩
    rw [hd] at hc
    simp only at hc
    subst hc
    simp [latest_file, hl, hd, FileSystem.read, FileSystem.write]
  · show (artifactHeader f.name f.modifiedTime f.webViewLink ++ c).data.drop
      (artifactHeader f.name f.modifiedTime f.webViewLink).data.length = c.data
    rw [String.data_append, List.drop_left]
  · exact ⟨"# 会議文字起こし\n\n" ++ "**元ファイル名:** ",
      "\n" ++ ("**更新日時:** " ++ f.modifiedTime ++ "\n")
        ++ ("**元のURL:** " ++ f.webViewLink ++ "\n\n") ++ "## 内容\n\n",
      by simp only [artifactHeader, String.append_assoc], rfl⟩
  · exact ⟨"# 会議文字起こし\n\n" ++ ("**元ファイル名:** " ++ f.name ++ "\n")
        ++ "**更新日時:** ",
      "\n" ++ ("**元のURL:** " ++ f.webViewLink ++ "\n\n") ++ "## 内容\n\n",
      by simp only [artifactHeader, String.append_assoc], rfl⟩
  · exact ⟨"# 会議文字起こし\n\n" ++ ("**元ファイル名:** " ++ f.name ++ "\n")
        ++ ("**更新日時:** " ++ f.modifiedTime ++ "\n") ++ "**元のURL:** ",
      "\n\n" ++ "## 内容\n\n",
      by simp only [artifactHeader, String.append_assoc], rfl⟩

/-- Witness for C5 at the concrete docx service: paragraphs Hello, empty,
World are extracted, persisted, and read back losslessly. -/
theorem c5_artifact_header_body_roundtrip_witness :
    FileSystem.read
      (download_latest_transcript_from_drive svcDocx "./downloads"
        "20240304_050607" ⟨[]⟩).2.1
      ("./downloads" ++ "/" ++ ("transcript_" ++ "20240304_050607" ++ ".md"))
        = some (artifactText fileDocx.name fileDocx.modifiedTime
            fileDocx.webViewLink "Hello\n\nWorld") ∧
    artifactText fileDocx.name fileDocx.modifiedTime fileDocx.webViewLink
        "Hello\n\nWorld"
      = artifactHeader fileDocx.name fileDocx.modifiedTime fileDocx.webViewLink
        ++ "Hello\n\nWorld" ∧
    (artifactText fileDocx.name fileDocx.modifiedTime fileDocx.webViewLink
        "Hello\n\nWorld").data.drop
      (artifactHeader fileDocx.name fileDocx.modifiedTime
        fileDocx.webViewLink).data.length = ("Hello\n\nWorld" : String).data ∧
    (∃ s1 s2, artifactHeader fileDocx.name fileDocx.modifiedTime fileDocx.webViewLink
      = s1 ++ (fileDocx.name ++ s2) ∧ s1 = "# 会議文字起こし\n\n" ++ "**元ファイル名:** ") ∧
    (∃ s1 s2, artifactHeader fileDocx.name fileDocx.modifiedTime fileDocx.webViewLink
      = s1 ++ (fileDocx.modifiedTime ++ s2) ∧ s2 = "\n" ++ ("**元のURL:** " ++ fileDocx.webViewLink ++ "\n\n") ++ "## 内容\n\n") ∧
    (∃ s1 s2, artifactHeader fileDocx.name fileDocx.modifiedTime fileDocx.webViewLink
      = s1 ++ (fileDocx.webViewLink ++ s2) ∧ s2 = "\n\n" ++ "## 内容\n\n") :=
  c5_artifact_header_body_roundtrip svcDocx "./downloads" "20240304_050607"
    ⟨[]⟩ fileDocx [] "Hello\n\nWorld" rfl rfl

/-- C2 counterexample: with a client whose auth test fails but whose post
succeeds, post_summary_to_slack returns success and performs no auth-test
call at all, contradicting the claim that every publish invocation checks
authentication first and fails with an auth error before posting. -/
theorem c2_claim_counterexample :
    (post_summary_to_slack ⟨false, true⟩ "C123" "## summary"
      "https://docs.example/doc1" 0).1 = true ∧
    ExtCall.slackAuthTest ∉
      (post_summary_to_slack ⟨false, true⟩ "C123" "## summary"
        "https://docs.example/doc1" 0).2 := by
  refine ⟨rfl, ?_⟩
  simp [post_summary_to_slack]

/-- C2 amended: post_summary_to_slack itself performs no authentication
check: its trace is exactly one chat_postMessage call built from the
summary and the document URL, and its outcome is the outcome of that post.
The lightweight auth check exists only as the separately exposed
test_slack_connection, which the orchestrator invokes before the pipeline
stages. -/
theorem c2_amended_publish_posts_without_auth_check (client : SlackClient)
    (channel_id summary_text google_doc_url : String) (now : Nat) :
    ExtCall.slackAuthTest ∉
      (post_summary_to_slack client channel_id summary_text google_doc_url now).2 ∧
    (post_summary_to_slack client channel_id summary_text google_doc_url now).2
      = [ExtCall.slackPost channel_id "📝 会議の要約が完了しました"
          (_create_slack_message summary_text google_doc_url now)] ∧
    (post_summary_to_slack client channel_id summary_text google_doc_url now).1
      = client.postOk ∧
    test_slack_connection client = client.authOk := by
  refine ⟨?_, rfl, rfl, rfl⟩
  simp [post_summary_to_slack]

/-- C3: In every orchestrator run in which the Slack auth test fails, main
returns overall failure and the trace contains no Drive call and no
generation call: every recorded external call is the auth test itself. -/
theorem c3_auth_failure_fail_fast (w : World) (h : w.slack.authOk = false) :
    (main w).1 = false ∧
    ∀ c ∈ (main w).2, c = ExtCall.slackAuthTest := by
  unfold main
  cases hload : load_environment_variables w.env with
  | error e => simp
  | ok env_vars => simp [test_slack_connection, h]

/-- Environment fixture with every required variable set. -/
def envOk : Env :=
  ⟨fun k =>
    if k = "GOOGLE_CREDENTIALS_PATH" then some "/tmp/credentials.json"
    else if k = "GOOGLE_DRIVE_FOLDER_ID" then some "folder123"
    else if k = "SLACK_BOT_TOKEN" then some "xoxb-123"
    else if k = "SLACK_CHANNEL_ID" then some "C123"
    else if k = "GOOGLE_AI_API_KEY" then some "aikey123"
    else none⟩

/-- World fixture whose Slack auth test fails. -/
def worldAuthFail : World :=
  ⟨envOk, ⟨false, true⟩, svcDocx, genStub, ⟨[]⟩, "20240304_050607", 1700000000⟩

/-- Witness for C3 at a concrete world with failing Slack auth. -/
theorem c3_auth_failure_fail_fast_witness :
    (main worldAuthFail).1 = false ∧
    ∀ c ∈ (main worldAuthFail).2, c = ExtCall.slackAuthTest :=
  c3_auth_failure_fail_fast worldAuthFail rfl

/-- C7: For every configuration resolution, if at least one required
setting is absent or empty then resolution fails with an error listing
exactly the falsy required keys, and every missing required key is in that
list, not only the first; if no required setting is missing, resolution
succeeds with the full bundle, whose optional settings carry their
defaults when the corresponding variables are absent. -/
theorem c7_config_enumerates_all_missing_keys (env : Env) :
    (missing_vars (buildEnvVars env) ≠ [] →
      load_environment_variables env = .error (missing_vars (buildEnvVars env)) ∧
      ∀ k ∈ required_vars,
        isFalsy (envVarsGet (buildEnvVars env) k) = true →
          k ∈ missing_vars (buildEnvVars env)) ∧
    (missing_vars (buildEnvVars env) = [] →
      load_environment_variables env = .ok (buildEnvVars env)) ∧
    (env.get "AI_MODEL_NAME" = none →
      (buildEnvVars env).ai_model_name = "gemini-pro") ∧
    (env.get "TARGET_DIRECTORY" = none →
      (buildEnvVars env).target_directory = "./downloads") := by
  refine ⟨fun hne => ⟨?_, ?_⟩, fun he => ?_, fun ha => ?_, fun ht => ?_⟩
  · simp [load_environment_variables, hne]
  · intro k hk hfalsy
    exact List.mem_filter.mpr ⟨hk, hfalsy⟩
  · simp [load_environment_variables, he]
  · simp [buildEnvVars, getenvD, ha]
  · simp [buildEnvVars, getenvD, ht]

/-- Environment fixture in which one required variable is absent and a
second is set to the empty string. -/
def envMissing : Env :=
  ⟨fun k =>
    if k = "GOOGLE_DRIVE_FOLDER_ID" then some "folder123"
    else if k = "SLACK_BOT_TOKEN" then some ""
    else if k = "SLACK_CHANNEL_ID" then some "C123"
    else if k = "GOOGLE_AI_API_KEY" then some "aikey123"
    else none⟩

/-- Witness for C7: with the credentials path absent and the bot token
empty, resolution fails and the error names both missing keys. -/
theorem c7_config_enumerates_all_missing_keys_witness :
    load_environment_variables envMissing
      = .error ["google_credentials_path", "slack_bot_token"] := by
  have h := ((c7_config_enumerates_all_missing_keys envMissing).1 (by decide)).1
  exact h

/-- C8: For every summarization invocation whose input file exists but
whose content is empty or whitespace only, the stage fails before any
generation backend call: the result is None and the trace of backend calls
is empty. -/
theorem c8_whitespace_input_no_backend_call (gen : GenBackend)
    (fs : FileSystem) (file_path content : String)
    (hread : FileSystem.read fs file_path = some content)
    (hblank : pyStrip content = "") :
    summarize_transcript_with_ai gen fs file_path = (none, []) := by
  unfold summarize_transcript_with_ai
  rw [hread]
  simp [hblank]

/-- Witness for C8 at a concrete whitespace-only transcript file. -/
theorem c8_whitespace_input_no_backend_call_witness :
    summarize_transcript_with_ai genStub ⟨[("t.md", " \n\t ")]⟩ "t.md"
      = (none, []) :=
  c8_whitespace_input_no_backend_call genStub ⟨[("t.md", " \n\t ")]⟩ "t.md"
    " \n\t " rfl rfl
